import Mathlib

/-! Shallow embedding of the environmental risk pipeline of
`sanchong_3d_digital_twin` (src/main.js) and verification of its
specification claims.

JavaScript numbers are embedded as rationals (`ℚ`); timestamps
(milliseconds since epoch, produced by `Date.now()`) as integers (`ℤ`).
`Math.round(x)` in JavaScript rounds half-way cases up (towards +∞),
which is `⌊x + 1/2⌋`.
-/

namespace Sanchong

/-- JavaScript `Math.round`: round half up, `Math.round(x) = ⌊x + 0.5⌋`. -/
def mathRound (x : ℚ) : ℚ := (⌊x + 1/2⌋ : ℤ)

/-- A raw weather datum `{rainfall, humidity, temperature}` as consumed by the
pipeline (`currentData` / `data` objects in src/main.js). -/
structure WeatherData where
  rainfall : ℚ
  humidity : ℚ
  temperature : ℚ
deriving DecidableEq, Repr

/-- An element of `RainfallPredictor.historicalData`: the fields pushed by
`addHistoricalData` (src/main.js lines 1268-1274), with `timestamp = Date.now()`. -/
structure HistEntry where
  rainfall : ℚ
  humidity : ℚ
  temperature : ℚ
  timestamp : ℤ
deriving DecidableEq, Repr

/-- The ordered hazard levels returned by `HeavyRainDetector.analyzeRainfallRisk`
(the strings 'SAFE', 'WATCH', 'WARNING', 'CRITICAL' in src/main.js). -/
inductive RiskLevel where
  | SAFE | WATCH | WARNING | CRITICAL
deriving DecidableEq, Repr

/-- The forecast-level scale returned by `RainfallPredictor.getPredictionLevel`
(the strings 'LOW', 'MODERATE', 'HIGH', 'CRITICAL' in src/main.js). -/
inductive PredictionLevel where
  | LOW | MODERATE | HIGH | CRITICAL
deriving DecidableEq, Repr

/-- Trend labels: the strings '증가' (increasing), '감소' (decreasing),
'유지' (stable) produced by `predict` / `fallbackPredict` in src/main.js. -/
inductive Trend where
  | INCREASING | DECREASING | STABLE
deriving DecidableEq, Repr

/-- Source label of a forecast: the `modelType` field, 'LSTM' on the trained path,
'Linear (Loading...)' on the fallback path (src/main.js lines 1451, 1470).
The fallback label is the spec's `source = FALLBACK`, the LSTM label its
`source = TRAINED`. -/
inductive ModelType where
  | LSTM | LinearLoading
deriving DecidableEq, Repr

/-- Embedding of `WeatherAPI.calculateFloodLevel` (src/main.js lines 125-132):
rainfall (mm/h) to flood level (intended 0-100%).

```js
if (rainfall === 0) return 0;
if (rainfall < 10) return rainfall * 3;
if (rainfall < 30) return 30 + (rainfall - 10) * 2;
if (rainfall < 50) return 70 + (rainfall - 30) * 1;
return Math.min(100, 90 + (rainfall - 50) * 0.5);
``` -/
def calculateFloodLevel (rainfall : ℚ) : ℚ :=
  if rainfall = 0 then 0
  else if rainfall < 10 then rainfall * 3
  else if rainfall < 30 then 30 + (rainfall - 10) * 2
  else if rainfall < 50 then 70 + (rainfall - 30) * 1
  else min 100 (90 + (rainfall - 50) * (1/2))

/-- Embedding of `HeavyRainDetector.analyzeRainfallRisk` (src/main.js lines 375-388):
threshold classification of current rainfall and 6-hour forecast into the
ordered hazard levels; the JS default argument `forecast6h = 0` is passed
explicitly here. -/
def analyzeRainfallRisk (currentRainfall : ℚ) (forecast6h : ℚ) : RiskLevel :=
  if 50 ≤ currentRainfall ∨ 100 ≤ forecast6h then .CRITICAL
  else if 30 ≤ currentRainfall ∨ 60 ≤ forecast6h then .WARNING
  else if 10 ≤ currentRainfall ∨ 30 ≤ forecast6h then .WATCH
  else .SAFE

/-- Embedding of `calculateRainfall` (src/main.js lines 1993-2013): flood percent to
rainfall (mm), 4-segment piecewise linear through
(0,0), (30,100), (50,200), (70,350), (100,500), rounded with `Math.round`. -/
def calculateRainfall (floodPercent : ℚ) : ℚ :=
  let rainfall :=
    if floodPercent ≤ 30 then (floodPercent / 30) * 100
    else if floodPercent ≤ 50 then 100 + ((floodPercent - 30) / 20) * 100
    else if floodPercent ≤ 70 then 200 + ((floodPercent - 50) / 20) * 150
    else 350 + ((floodPercent - 70) / 30) * 150
  mathRound rainfall

/-- Embedding of `rainfallToFloodLevel` (src/main.js lines 2016-2037): rainfall (mm) to
flood percent, the inverse calibration of `calculateRainfall`, clamped to
[0,100]. -/
def rainfallToFloodLevel (rainfall : ℚ) : ℚ :=
  if rainfall ≤ 0 then 0
  else if 500 ≤ rainfall then 100
  else
    let floodPercent :=
      if rainfall ≤ 100 then (rainfall / 100) * 30
      else if rainfall ≤ 200 then 30 + ((rainfall - 100) / 100) * 20
      else if rainfall ≤ 350 then 50 + ((rainfall - 200) / 150) * 20
      else 70 + ((rainfall - 350) / 150) * 30
    min 100 (max 0 floodPercent)

/-- Embedding of `RainfallPredictor.sequenceLength` (src/main.js line 1098): the fixed
model input window length `L = 10`. -/
def sequenceLength : ℕ := 10

/-- Milliseconds in 24 hours: the retention horizon `24 * 3600000` used by
`addHistoricalData` (src/main.js line 1277). -/
def dayMs : ℤ := 24 * 3600000

/-- Embedding of `RainfallPredictor.addHistoricalData` (src/main.js lines 1268-1284) as a
state transition on `historicalData`. It pushes the new entry with
`timestamp = Date.now()` (the parameter `now`), keeps only entries with
`timestamp > now - 24h`, and reports whether the retrain branch
`length >= 50 && length % 20 === 0` fired. -/
def addHistoricalData (hist : List HistEntry) (data : WeatherData) (now : ℤ) :
    List HistEntry × Bool :=
  let pushed := hist ++
    [{ rainfall := data.rainfall, humidity := data.humidity,
       temperature := data.temperature, timestamp := now }]
  let dayAgo := now - dayMs
  let kept := pushed.filter fun d => decide (dayAgo < d.timestamp)
  (kept, decide (50 ≤ kept.length) && decide (kept.length % 20 = 0))

/-- The history read pattern `historicalData.slice(-n)` (src/main.js lines
1397 and 1418): the most recent `n` entries in chronological order. The code
only ever calls it with `n = 10 = sequenceLength`, which is positive, so
`drop (length - n)` coincides with the JavaScript `slice(-n)`. -/
def recent (n : ℕ) (hist : List HistEntry) : List HistEntry :=
  hist.drop (hist.length - n)

/-- The summation loop of `RainfallPredictor.calculateTrend` (src/main.js
lines 1398-1402): `for (i = 1; i < recent.length; i++) sum += recent[i] -
recent[i-1]`, on the list of rainfall values. -/
def sumDiffs : List ℚ → ℚ
  | a :: b :: rest => (b - a) + sumDiffs (b :: rest)
  | _ => 0

/-- Embedding of `RainfallPredictor.calculateTrend` (src/main.js lines 1394-1405):
0 when fewer than 2 entries exist, otherwise the average first difference of
rainfall over the most recent (at most) 10 entries. -/
def calculateTrend (hist : List HistEntry) : ℚ :=
  if hist.length < 2 then 0
  else
    let r := recent 10 hist
    sumDiffs (r.map (·.rainfall)) / ((r.length : ℚ) - 1)

/-- The per-observation feature normalization used for model input
(src/main.js lines 1419-1423 and 1427-1431): `[rainfall/100, humidity/100,
temperature/40]`. -/
def features (rainfall humidity temperature : ℚ) : ℚ × ℚ × ℚ :=
  (rainfall / 100, humidity / 100, temperature / 40)

/-- The sequence construction of `RainfallPredictor.predict` (src/main.js
lines 1414-1433): the most recent `sequenceLength` history entries when
enough exist, else the current observation repeated `sequenceLength` times. -/
def buildSequence (currentData : WeatherData) (hist : List HistEntry) :
    List (ℚ × ℚ × ℚ) :=
  if sequenceLength ≤ hist.length then
    (recent sequenceLength hist).map fun d =>
      features d.rainfall d.humidity d.temperature
  else
    List.replicate sequenceLength
      (features currentData.rainfall currentData.humidity currentData.temperature)

/-- Embedding of `RainfallPredictor.getPredictionLevel` (src/main.js lines 1475-1480). -/
def getPredictionLevel (rainfall : ℚ) : PredictionLevel :=
  if 50 ≤ rainfall then .CRITICAL
  else if 30 ≤ rainfall then .HIGH
  else if 10 ≤ rainfall then .MODERATE
  else .LOW

/-- The trend labelling shared by both forecast paths (src/main.js lines
1449 and 1468): `trend > 0 ? '증가' : trend < 0 ? '감소' : '유지'`. -/
def trendLabel (trend : ℚ) : Trend :=
  if 0 < trend then .INCREASING else if trend < 0 then .DECREASING else .STABLE

/-- The forecast record returned by `predict` / `fallbackPredict`
(src/main.js lines 1446-1452 and 1465-1471). -/
structure Forecast where
  rainfall6h : ℚ
  confidence : ℚ
  trend : Trend
  level : PredictionLevel
  modelType : ModelType
deriving DecidableEq, Repr

/-- Embedding of `RainfallPredictor.fallbackPredict` (src/main.js lines 1456-1472): the
linear fallback estimator used while the model is not ready. -/
def fallbackPredict (currentData : WeatherData) (hist : List HistEntry) :
    Forecast :=
  let trend := calculateTrend hist
  let prediction :=
    currentData.rainfall * (6/10) +
    (currentData.humidity / 100) * 30 * (2/10) +
    (30 - currentData.temperature) * (1/10) +
    trend * 5 * (1/10)
  { rainfall6h := mathRound (max 0 prediction * 10) / 10
    confidence := min 100 ((hist.length : ℚ) * 5)
    trend := trendLabel trend
    level := getPredictionLevel prediction
    modelType := .LinearLoading }

/-- Embedding of `RainfallPredictor.predict` (src/main.js lines 1408-1453). The trained
LSTM is abstracted as the function `model` from the normalized input sequence
to the raw network output `(await prediction.data())[0]`; the code multiplies
that output by 100 to denormalize. `isModelReady` is the readiness flag set
after training. -/
def predict (isModelReady : Bool) (model : List (ℚ × ℚ × ℚ) → ℚ)
    (currentData : WeatherData) (hist : List HistEntry) : Forecast :=
  if !isModelReady then fallbackPredict currentData hist
  else
    let sequence := buildSequence currentData hist
    let predictedValue := model sequence * 100
    let trend := calculateTrend hist
    let confidence := min 100 ((hist.length : ℚ) * 3)
    { rainfall6h := mathRound (max 0 predictedValue * 10) / 10
      confidence := mathRound confidence
      trend := trendLabel trend
      level := getPredictionLevel predictedValue
      modelType := .LSTM }

/-- The fixed observation used for the retraining scenario of the spec
(all-zero weather datum appended repeatedly). -/
def scenarioData : WeatherData := { rainfall := 0, humidity := 0, temperature := 0 }

/-- The history entry `scenarioData` becomes when appended at time 0. -/
def scenarioEntry : HistEntry :=
  { rainfall := 0, humidity := 0, temperature := 0, timestamp := 0 }

/-- The retraining scenario: starting from the empty history, append
`scenarioData` `k` times, all at time 0 (so everything stays inside the
24-hour horizon). -/
def scenarioHist : ℕ → List HistEntry
  | 0 => []
  | k + 1 => (addHistoricalData (scenarioHist k) scenarioData 0).1

/-- Whether the retrain branch fires on the `(k+1)`-th append of the
retraining scenario. -/
def scenarioTrigger (k : ℕ) : Bool :=
  (addHistoricalData (scenarioHist k) scenarioData 0).2

/-! Helper lemmas shared by the claim theorems. -/

lemma mathRound_nonneg {x : ℚ} (hx : 0 ≤ x) : 0 ≤ mathRound x := by
  unfold mathRound
  exact_mod_cast Int.floor_nonneg.mpr (by linarith)

lemma mathRound_mono {x y : ℚ} (h : x ≤ y) : mathRound x ≤ mathRound y := by
  unfold mathRound
  exact_mod_cast Int.floor_le_floor (by linarith)

lemma mathRound_le_100 {x : ℚ} (hx : x ≤ 100) : mathRound x ≤ 100 := by
  unfold mathRound
  have : ⌊x + 1/2⌋ ≤ (100 : ℤ) := by
    rw [Int.floor_le_iff]
    push_cast
    linarith
  exact_mod_cast this

lemma rainfallToFloodLevel_mono {a b : ℚ} (h : a ≤ b) :
    rainfallToFloodLevel a ≤ rainfallToFloodLevel b := by
  simp only [rainfallToFloodLevel]
  split_ifs
  all_goals try linarith
  all_goals try exact min_le_min le_rfl (max_le_max le_rfl (by linarith))
  all_goals simp only [le_min_iff, min_le_iff, le_max_iff, max_le_iff]
  all_goals norm_num

lemma calculateRainfall_mono {a b : ℚ} (h : a ≤ b) :
    calculateRainfall a ≤ calculateRainfall b := by
  simp only [calculateRainfall]
  apply mathRound_mono
  have hb : (0:ℚ) < 30 := by norm_num
  split_ifs <;> linarith

lemma calculateFloodLevel_mono {a b : ℚ} (h : a ≤ b) :
    calculateFloodLevel a ≤ calculateFloodLevel b := by
  simp only [calculateFloodLevel]
  split_ifs
  all_goals try linarith
  all_goals try exact min_le_min le_rfl (by linarith)
  all_goals simp only [le_min_iff, min_le_iff]
  all_goals exact ⟨by linarith, by linarith⟩

lemma rainfallToFloodLevel_nonneg (r : ℚ) : 0 ≤ rainfallToFloodLevel r := by
  simp only [rainfallToFloodLevel]
  split_ifs
  all_goals try simp only [le_min_iff, le_max_iff]
  all_goals norm_num

lemma rainfallToFloodLevel_le_100 (r : ℚ) : rainfallToFloodLevel r ≤ 100 := by
  simp only [rainfallToFloodLevel]
  split_ifs
  all_goals try simp only [min_le_iff]
  all_goals norm_num

lemma scenario_step (n : ℕ) :
    addHistoricalData (List.replicate n scenarioEntry) scenarioData 0
      = (List.replicate (n+1) scenarioEntry,
         decide (50 ≤ n+1) && decide ((n+1) % 20 = 0)) := by
  have hlit : ({ rainfall := scenarioData.rainfall
                 humidity := scenarioData.humidity
                 temperature := scenarioData.temperature
                 timestamp := (0:ℤ) } : HistEntry)
      = scenarioEntry := rfl
  have hfilter : (List.replicate (n+1) scenarioEntry).filter
      (fun d => decide ((0:ℤ) - dayMs < d.timestamp))
      = List.replicate (n+1) scenarioEntry := by
    apply List.filter_eq_self.mpr
    intro b hb
    rw [List.eq_of_mem_replicate hb]
    decide
  unfold addHistoricalData
  dsimp only
  rw [hlit, ← List.replicate_succ', hfilter, List.length_replicate]

lemma scenarioHist_eq (k : ℕ) : scenarioHist k = List.replicate k scenarioEntry := by
  induction k with
  | zero => rfl
  | succ n ih =>
      simp only [scenarioHist, ih, scenario_step]

lemma scenarioTrigger_eq (k : ℕ) :
    scenarioTrigger k = (decide (50 ≤ k+1) && decide ((k+1) % 20 = 0)) := by
  unfold scenarioTrigger
  rw [scenarioHist_eq, scenario_step]

/-! The claim theorems. -/

/-- Claim C1: the risk classification evaluates its thresholds in descending
severity and returns the first match: CRITICAL if `currentRainfall ≥ 50` or
`forecast6h ≥ 100`; else WARNING if `currentRainfall ≥ 30` or
`forecast6h ≥ 60`; else WATCH if `currentRainfall ≥ 10` or `forecast6h ≥ 30`;
else SAFE. In particular `classify(0,0) = SAFE` and
`classify(55,0) = CRITICAL`. -/
theorem analyzeRainfallRisk_thresholds (c f : ℚ) :
    ((50 ≤ c ∨ 100 ≤ f) → analyzeRainfallRisk c f = .CRITICAL) ∧
    (c < 50 → f < 100 → (30 ≤ c ∨ 60 ≤ f) → analyzeRainfallRisk c f = .WARNING) ∧
    (c < 50 → f < 100 → c < 30 → f < 60 → (10 ≤ c ∨ 30 ≤ f) →
      analyzeRainfallRisk c f = .WATCH) ∧
    (c < 50 → f < 100 → c < 30 → f < 60 → c < 10 → f < 30 →
      analyzeRainfallRisk c f = .SAFE) ∧
    analyzeRainfallRisk 0 0 = .SAFE ∧
    analyzeRainfallRisk 55 0 = .CRITICAL := by
  refine ⟨?_, ?_, ?_, ?_, ?_, ?_⟩
  · intro h1
    rw [analyzeRainfallRisk, if_pos h1]
  · intro h1 h2 h3
    rw [analyzeRainfallRisk, if_neg (by push_neg; exact ⟨h1, h2⟩), if_pos h3]
  · intro h1 h2 h3 h4 h5
    rw [analyzeRainfallRisk, if_neg (by push_neg; exact ⟨h1, h2⟩),
      if_neg (by push_neg; exact ⟨h3, h4⟩), if_pos h5]
  · intro h1 h2 h3 h4 h5 h6
    rw [analyzeRainfallRisk, if_neg (by push_neg; exact ⟨h1, h2⟩),
      if_neg (by push_neg; exact ⟨h3, h4⟩), if_neg (by push_neg; exact ⟨h5, h6⟩)]
  · norm_num [analyzeRainfallRisk]
  · norm_num [analyzeRainfallRisk]

/-- Witness for C1: the classifier applied at the concrete scenario input
(55, 0) via the threshold theorem. -/
theorem analyzeRainfallRisk_thresholds_witness :
    analyzeRainfallRisk 55 0 = .CRITICAL :=
  (analyzeRainfallRisk_thresholds 55 0).1 (Or.inl (by norm_num))

/-- Claim C2 counterexample: in the 70-append scenario the retrain branch does NOT
fire on the append of the 70th observation (70 % 20 = 10 ≠ 0); it fires on
the append of the 60th observation instead. -/
theorem retrainTrigger_not_at_70th :
    scenarioTrigger 69 = false ∧ scenarioTrigger 59 = true := by
  rw [scenarioTrigger_eq, scenarioTrigger_eq]
  decide

/-- Claim C2 amended: starting from an empty history, appending 70 observations
all within the 24-hour horizon triggers a model retrain exactly once, namely
on the append of the 60th observation (the first count that is at least 50
and divisible by 20), and on no other of the 70 appends. -/
theorem retrainTrigger_exactly_at_60th (k : ℕ) (hk : k < 70) :
    scenarioTrigger k = true ↔ k + 1 = 60 := by
  rw [scenarioTrigger_eq]
  simp only [Bool.and_eq_true, decide_eq_true_eq]
  omega

/-- Witness for C2: the retrain fires on the 60th append. -/
theorem retrainTrigger_exactly_at_60th_witness : scenarioTrigger 59 = true :=
  (retrainTrigger_exactly_at_60th 59 (by norm_num)).mpr rfl

/-- Claim C3: composing the flood-percent-to-rainfall mapping with the
rainfall-to-flood-percent mapping round-trips exactly (hence within any small
tolerance) at each breakpoint p ∈ {0, 30, 50, 70, 100}, while off the
breakpoints exact round-trip is not guaranteed (it already fails at p = 1). -/
theorem floodRainfall_roundtrip_breakpoints :
    rainfallToFloodLevel (calculateRainfall 0) = 0 ∧
    rainfallToFloodLevel (calculateRainfall 30) = 30 ∧
    rainfallToFloodLevel (calculateRainfall 50) = 50 ∧
    rainfallToFloodLevel (calculateRainfall 70) = 70 ∧
    rainfallToFloodLevel (calculateRainfall 100) = 100 ∧
    rainfallToFloodLevel (calculateRainfall 1) ≠ 1 := by
  norm_num [rainfallToFloodLevel, calculateRainfall, mathRound]

/-- Claim C4 counterexample: `WeatherAPI.calculateFloodLevel` does not clamp
negative rainfall to 0 before evaluation: at rainfall = -5 it returns -15,
which differs from its value at 0 and lies outside [0,100]. -/
theorem calculateFloodLevel_negative_cex :
    calculateFloodLevel (-5) = -15 ∧ calculateFloodLevel 0 = 0 ∧
    calculateFloodLevel (-5) ≠ calculateFloodLevel 0 ∧
    calculateFloodLevel (-5) < 0 := by
  norm_num [calculateFloodLevel]

/-- Claim C4 amended: the mappings are total (no exception is ever raised: both
are total functions on ℚ). `rainfallToFloodLevel` clamps negative rainfall
to 0 — its result for any rainfall < 0 equals its result at 0 — and its
output always lies in [0,100]; `calculateFloodLevel`, however, does not
clamp: for rainfall < 0 it returns rainfall * 3. -/
theorem floodMapping_clamping_amended (r : ℚ) :
    (r < 0 → rainfallToFloodLevel r = rainfallToFloodLevel 0) ∧
    0 ≤ rainfallToFloodLevel r ∧ rainfallToFloodLevel r ≤ 100 ∧
    (r < 0 → calculateFloodLevel r = r * 3) := by
  refine ⟨?_, rainfallToFloodLevel_nonneg r, rainfallToFloodLevel_le_100 r, ?_⟩
  · intro hr
    rw [rainfallToFloodLevel, if_pos (le_of_lt hr), rainfallToFloodLevel,
      if_pos le_rfl]
  · intro hr
    rw [calculateFloodLevel, if_neg (ne_of_lt hr), if_pos (by linarith)]

/-- Witness for C4 (amended) at the concrete input -5. -/
theorem floodMapping_clamping_amended_witness :
    rainfallToFloodLevel (-5) = rainfallToFloodLevel 0 ∧
    calculateFloodLevel (-5) = (-5) * 3 :=
  ⟨(floodMapping_clamping_amended (-5)).1 (by norm_num),
   (floodMapping_clamping_amended (-5)).2.2.2 (by norm_num)⟩

/-- Claim C5: for every readiness state, model, current observation and history
contents (including the empty history), `predict` returns a forecast with
`rainfall6h ≥ 0` and confidence in [0,100]; both the trained and the
fallback path are total, so `predict` never fails to return a value. -/
theorem predict_total_and_bounded (ready : Bool)
    (model : List (ℚ × ℚ × ℚ) → ℚ) (cur : WeatherData) (hist : List HistEntry) :
    0 ≤ (predict ready model cur hist).rainfall6h ∧
    0 ≤ (predict ready model cur hist).confidence ∧
    (predict ready model cur hist).confidence ≤ 100 := by
  have hlen : (0:ℚ) ≤ (hist.length : ℚ) := Nat.cast_nonneg _
  cases ready with
  | false =>
      simp only [predict, fallbackPredict, Bool.not_false, if_pos]
      refine ⟨?_, ?_, min_le_left _ _⟩
      · exact div_nonneg (mathRound_nonneg (by positivity)) (by norm_num)
      · exact le_min (by norm_num) (by positivity)
  | true =>
      simp only [predict, Bool.not_true, Bool.false_eq_true, if_false]
      refine ⟨?_, ?_, ?_⟩
      · exact div_nonneg (mathRound_nonneg (by positivity)) (by norm_num)
      · exact mathRound_nonneg (le_min (by norm_num) (by positivity))
      · exact mathRound_le_100 (min_le_left _ _)

/-- Claim C6: after every append, every stored element's timestamp is within 24
hours of the append time (older elements are evicted by the append), and
reading the most recent n elements never returns more than n elements. -/
theorem historyWindow_retention_and_recent (hist : List HistEntry)
    (d : WeatherData) (now : ℤ) :
    (∀ e ∈ (addHistoricalData hist d now).1, now - e.timestamp < dayMs) ∧
    ∀ (n : ℕ) (h : List HistEntry), (recent n h).length ≤ n := by
  constructor
  · intro e he
    unfold addHistoricalData at he
    simp only [List.mem_filter, decide_eq_true_eq] at he
    linarith [he.2]
  · intro n h
    unfold recent
    rw [List.length_drop]
    omega

/-- Witness for C6 at a concrete append and a concrete read. -/
theorem historyWindow_retention_and_recent_witness :
    (0:ℤ) - scenarioEntry.timestamp < dayMs ∧
    (recent 2 (List.replicate 3 scenarioEntry)).length ≤ 2 := by
  constructor
  · refine (historyWindow_retention_and_recent [] scenarioData 0).1 scenarioEntry ?_
    have h0 : (addHistoricalData [] scenarioData 0).1
        = List.replicate 1 scenarioEntry :=
      congrArg Prod.fst (scenario_step 0)
    rw [h0]
    simp
  · exact (historyWindow_retention_and_recent [] scenarioData 0).2 2 _

/-- Claim C7: the rainfall-to-flood-percent mappings (`rainfallToFloodLevel` and
the convenience mapping `calculateFloodLevel`) and the
flood-percent-to-rainfall mapping (`calculateRainfall`) are each monotone
non-decreasing over their full input domain. -/
theorem floodMappings_monotone (a b : ℚ) (h : a ≤ b) :
    rainfallToFloodLevel a ≤ rainfallToFloodLevel b ∧
    calculateRainfall a ≤ calculateRainfall b ∧
    calculateFloodLevel a ≤ calculateFloodLevel b :=
  ⟨rainfallToFloodLevel_mono h, calculateRainfall_mono h,
   calculateFloodLevel_mono h⟩

/-- Witness for C7 at the concrete pair 0 ≤ 1. -/
theorem floodMappings_monotone_witness :
    rainfallToFloodLevel 0 ≤ rainfallToFloodLevel 1 ∧
    calculateRainfall 0 ≤ calculateRainfall 1 ∧
    calculateFloodLevel 0 ≤ calculateFloodLevel 1 :=
  floodMappings_monotone 0 1 (by norm_num)

/-- Claim C8 counterexample: confidence is NOT `min(100, historySize * k)` for one
fixed constant k across both paths, and cross-path monotonicity fails: at
the same history size 10 the fallback path reports confidence 50 while the
trained path reports 30, so a pair of runs with n1 = n2 = 10 (fallback
first, trained second) violates the claimed monotonicity. -/
theorem confidence_cross_path_cex :
    (fallbackPredict scenarioData (List.replicate 10 scenarioEntry)).confidence = 50 ∧
    (predict true (fun _ => 0) scenarioData (List.replicate 10 scenarioEntry)).confidence = 30 ∧
    ¬ (fallbackPredict scenarioData (List.replicate 10 scenarioEntry)).confidence ≤
      (predict true (fun _ => 0) scenarioData (List.replicate 10 scenarioEntry)).confidence := by
  norm_num [fallbackPredict, predict, mathRound, List.length_replicate]

/-- Claim C8 amended: the confidence is `min(100, historySize * k)` with a
path-dependent constant k — k = 3 on the trained path (then rounded) and
k = 5 on the fallback path. Within each fixed path it is monotone
non-decreasing in the history size and capped at 100; monotonicity across
different paths does not hold in general. -/
theorem confidence_monotone_per_path (model1 model2 : List (ℚ × ℚ × ℚ) → ℚ)
    (d1 d2 : WeatherData) (h1 h2 : List HistEntry)
    (hle : h1.length ≤ h2.length) :
    (predict true model1 d1 h1).confidence ≤ (predict true model2 d2 h2).confidence ∧
    (fallbackPredict d1 h1).confidence ≤ (fallbackPredict d2 h2).confidence ∧
    (predict true model1 d1 h1).confidence ≤ 100 ∧
    (fallbackPredict d1 h1).confidence ≤ 100 := by
  have hq : ((h1.length : ℚ)) ≤ (h2.length : ℚ) := Nat.cast_le.mpr hle
  simp only [predict, fallbackPredict, Bool.not_true, Bool.false_eq_true, if_false]
  refine ⟨?_, ?_, ?_, min_le_left _ _⟩
  · exact mathRound_mono (min_le_min le_rfl (by linarith))
  · exact min_le_min le_rfl (by linarith)
  · exact mathRound_le_100 (min_le_left _ _)

/-- Witness for C8 (amended) at history sizes 0 ≤ 1. -/
theorem confidence_monotone_per_path_witness :
    (predict true (fun _ => 0) scenarioData []).confidence ≤
      (predict true (fun _ => 0) scenarioData [scenarioEntry]).confidence ∧
    (fallbackPredict scenarioData []).confidence ≤
      (fallbackPredict scenarioData [scenarioEntry]).confidence ∧
    (predict true (fun _ => 0) scenarioData []).confidence ≤ 100 ∧
    (fallbackPredict scenarioData []).confidence ≤ 100 :=
  confidence_monotone_per_path (fun _ => 0) (fun _ => 0) scenarioData
    scenarioData [] [scenarioEntry] (by norm_num)

/-- Claim C9: when the history holds fewer than `sequenceLength = 10`
observations, `predict` builds its model input by repeating the current
observation 10 times, and the returned forecast carries the fallback label
('Linear (Loading...)', the spec's FALLBACK source) when the model is
untrained and the trained label ('LSTM') otherwise; insufficient history is
never an error — both paths return a forecast. -/
theorem predict_pads_short_history (cur : WeatherData) (hist : List HistEntry)
    (model : List (ℚ × ℚ × ℚ) → ℚ) (hshort : hist.length < sequenceLength) :
    buildSequence cur hist =
      List.replicate sequenceLength
        (features cur.rainfall cur.humidity cur.temperature) ∧
    (predict false model cur hist).modelType = .LinearLoading ∧
    (predict true model cur hist).modelType = .LSTM := by
  refine ⟨?_, rfl, rfl⟩
  unfold buildSequence
  rw [if_neg (by omega)]

/-- Witness for C9 at the empty history. -/
theorem predict_pads_short_history_witness :
    buildSequence scenarioData [] =
      List.replicate sequenceLength
        (features scenarioData.rainfall scenarioData.humidity
          scenarioData.temperature) ∧
    (predict false (fun _ => 0) scenarioData []).modelType = .LinearLoading ∧
    (predict true (fun _ => 0) scenarioData []).modelType = .LSTM :=
  predict_pads_short_history scenarioData [] (fun _ => 0)
    (by norm_num [sequenceLength])

/-- Claim C10: with fewer than 2 observations in the history (including the empty
history) the trend computation returns exactly 0 and both forecast paths
report a STABLE trend; with 2 or more observations the trend is the average
first difference of rainfall over the most recent at-most-10 observations. -/
theorem calculateTrend_spec (hist : List HistEntry)
    (model : List (ℚ × ℚ × ℚ) → ℚ) (cur : WeatherData) :
    (hist.length < 2 →
      calculateTrend hist = 0 ∧
      (predict true model cur hist).trend = .STABLE ∧
      (predict false model cur hist).trend = .STABLE) ∧
    (2 ≤ hist.length →
      calculateTrend hist =
        sumDiffs ((recent 10 hist).map (·.rainfall)) /
          (((recent 10 hist).length : ℚ) - 1) ∧
      (recent 10 hist).length ≤ 10) := by
  constructor
  · intro hlt
    have h0 : calculateTrend hist = 0 := by
      unfold calculateTrend
      rw [if_pos hlt]
    have hlabel : trendLabel (calculateTrend hist) = .STABLE := by
      rw [h0, trendLabel, if_neg (lt_irrefl 0), if_neg (lt_irrefl 0)]
    exact ⟨h0, hlabel, hlabel⟩
  · intro hge
    constructor
    · unfold calculateTrend
      rw [if_neg (by omega)]
    · unfold recent
      rw [List.length_drop]
      omega

/-- Witness for C10 at the empty history. -/
theorem calculateTrend_spec_witness :
    calculateTrend [] = 0 ∧
    (predict true (fun _ => 0) scenarioData []).trend = .STABLE ∧
    (predict false (fun _ => 0) scenarioData []).trend = .STABLE :=
  (calculateTrend_spec [] (fun _ => 0) scenarioData).1 (by norm_num)

end Sanchong
